import Mathlib

/-!
Shallow embedding of `helper/rpcserver.py`: a JSON-RPC helper for testing
Xaya applications on a forked EVM chain.  External capabilities (the chain
node, the registry contract, the GSP) are modelled as an oracle environment
whose calls return `Except Exn` values; mutating capability calls are
recorded as an explicit event trace.  Python dictionaries built up by the
workflows are modelled as structures with `Option` fields (a `none` field
is an absent key).
-/

/-- A Python exception, as observed by `except Exception as e`:
`str (e)` and `type (e).__name__`. -/
structure Exn where
  msg : String
  ty : String
deriving Repr, DecidableEq

/-- The value returned by a `transact` call for the move transaction:
`tx.hex () if hasattr (tx, 'hex') else str (tx)`. -/
structure Tx where
  hexRepr : Option String
  strRepr : String
deriving Repr, DecidableEq

/-- Rendering of a transaction id, from `sendmove`. -/
def txRender (t : Tx) : String :=
  match t.hexRepr with
  | some h => h
  | none => t.strRepr

/-- A call to a mutating capability, with its arguments. -/
inductive Event
  /-- Python `eth.anvil_setBalance (addr, wei)` -/
  | setBalance (addr : String) (wei : Nat)
  /-- Python `wchi.functions.approve (spender, amount).transact ({"from": sender})` -/
  | approve (spender : String) (amount : Nat) (sender : String)
  /-- Python `accounts.functions.register (ns, name).transact ({"from": receiver})` -/
  | register (ns name sender : String)
  /-- Python `accounts.functions.transferFrom (o, r, tokenId).transact ({"from": o})` -/
  | transferFrom (fromAddr toAddr : String) (tokenId : Nat) (sender : String)
  /-- Python `accounts.functions.move (ns, name, mv, nonce, amount, recv).transact (...)` -/
  | moveTx (ns name mv : String) (nonce amount : Nat) (recv : String) (sender : String)
  /-- Python `eth.evm_mine ()` -/
  | mineBlock
deriving Repr, DecidableEq

/-- A JSON-like Python value, as handed to the RPC methods after decoding. -/
inductive Jv
  | null
  | bool (b : Bool)
  | num (n : Int)
  | str (s : String)
  | arr (xs : List Jv)
  | obj (kvs : List (String × Jv))
deriving Repr

/-- Python truthiness of such a value. -/
def pyTruthy : Jv → Bool
  | .null => false
  | .bool b => b
  | .num n => n != 0
  | .str s => s.length != 0
  | .arr xs => !xs.isEmpty
  | .obj kvs => !kvs.isEmpty

/-- One character of JSON string escaping, as `json.dumps` (compact,
`ensure_ascii` default) renders it. -/
def jEscapeChar (c : Char) : String :=
  if c = '"' then "\\\""
  else if c = '\\' then "\\\\"
  else if c = '\n' then "\\n"
  else if c = '\t' then "\\t"
  else if c = '\r' then "\\r"
  else if c.toNat < 32 ∨ c.toNat > 126 then
    let hex4 (n : Nat) : String :=
      let dig (d : Nat) : Char := if d < 10 then Char.ofNat (48 + d)
                                  else Char.ofNat (87 + d)
      String.mk [dig (n / 4096 % 16), dig (n / 256 % 16), dig (n / 16 % 16), dig (n % 16)]
    if c.toNat ≤ 65535 then "\\u" ++ hex4 c.toNat
    else
      let v := c.toNat - 65536
      "\\u" ++ hex4 (55296 + v / 1024) ++ "\\u" ++ hex4 (56320 + v % 1024)
  else String.mk [c]

/-- JSON rendering of a string literal. -/
def jStr (s : String) : String :=
  "\"" ++ String.join (s.data.map jEscapeChar) ++ "\""

mutual

/-- Python `json.dumps (v, separators=(",", ":"))`: compact JSON serialization. -/
def dumps : Jv → String
  | .null => "null"
  | .bool b => if b then "true" else "false"
  | .num n => toString n
  | .str s => jStr s
  | .arr xs => "[" ++ dumpsArr xs ++ "]"
  | .obj kvs => "\x7b" ++ dumpsObj kvs ++ "\x7d"

/-- Elements of a JSON array, comma-separated. -/
def dumpsArr : List Jv → String
  | [] => ""
  | [x] => dumps x
  | x :: y :: xs => dumps x ++ "," ++ dumpsArr (y :: xs)

/-- Members of a JSON object, compact separators. -/
def dumpsObj : List (String × Jv) → String
  | [] => ""
  | [(k, v)] => jStr k ++ ":" ++ dumps v
  | (k, v) :: m :: xs => jStr k ++ ":" ++ dumps v ++ "," ++ dumpsObj (m :: xs)

end

/-- The canonical string form of a move payload:
`mv if type (mv) == str else json.dumps (mv, separators=(",", ":"))`. -/
def canonicalMove : Jv → String
  | .str s => s
  | v => dumps v

/-- Python slicing `s[:n]`. -/
def pyTake (s : String) (n : Nat) : String :=
  String.mk (s.data.take n)

/-- A character snapshot, as present in the GSP `getcharacters` response.
Each field is an `Option` because the corresponding dictionary key may be
absent.  `ongoing` keeps the raw value because only its truthiness is
inspected; `movement` is the sub-dictionary, keeping its numeric entries. -/
structure Character where
  id : Option Int := none
  owner : Option String := none
  pos : Option Jv := none
  speed : Option Int := none
  inbuilding : Option String := none
  faction : Option String := none
  ongoing : Option Jv := none
  movement : Option (List (String × Int)) := none
deriving Repr

/-- The `getnullstate` response dictionary of the GSP. -/
structure NullState where
  state : Option String := none
  blockhash : Option String := none
deriving Repr, DecidableEq

/-- The oracle environment: every external capability call the workflows
perform, each returning either a value or a raised exception.  `polls`
and the clocks serve `syncgsp`, whose GSP queries and time reads vary
over the iterations of its wait loop. -/
structure Env where
  /-- Python `os.getenv ("ACCOUNTS_CONTRACT")`, i.e. `accounts.address`. -/
  accountsAddress : String
  /-- Python `accounts.functions.exists (ns, name).call ()` -/
  existsName : String → String → Except Exn Bool
  /-- Python `accounts.functions.tokenIdForName (ns, name).call ()` -/
  tokenIdForName : String → String → Except Exn Nat
  /-- Python `accounts.functions.ownerOf (tokenId).call ()` -/
  ownerOf : Nat → Except Exn String
  /-- Python `w3.eth.get_balance (addr, "latest")` -/
  getBalance : String → Except Exn Nat
  /-- Python `eth.anvil_setBalance (addr, wei)` -/
  setBalance : String → Nat → Except Exn Unit
  /-- Python `wchi.functions.approve (spender, amount).transact ({"from": sender})` -/
  approve : String → Nat → String → Except Exn Unit
  /-- Python `accounts.functions.register (ns, name).transact ({"from": sender})` -/
  register : String → String → String → Except Exn Unit
  /-- Python `accounts.functions.transferFrom (...).transact ({"from": sender})` -/
  transferFrom : String → String → Nat → String → Except Exn Unit
  /-- Python `accounts.functions.move (ns, name, mv, nonce, amount, recv).transact (...)` -/
  moveTx : String → String → String → Nat → Nat → String → String → Except Exn Tx
  /-- Python `eth.evm_mine ()` -/
  evmMine : Except Exn Unit
  /-- Python `gsp.getcharacters ()`, with `none` when the response has no "data" key. -/
  getcharacters : Except Exn (Option (List Character))
  /-- Python `w3.eth.get_block ("latest")["hash"].hex ()` -/
  headHash : Except Exn String
  /-- Python `gsp.getnullstate ()` at the i-th iteration of the sync wait loop. -/
  polls : Nat → Except Exn NullState
  /-- Python `time.time ()` at the start of `syncgsp`. -/
  startClock : ℚ
  /-- Python `time.time ()` at the deadline check of the i-th loop iteration. -/
  checkClock : Nat → ℚ
  /-- Python `time.time ()` at the `waitTime` computation after the loop. -/
  finalClock : ℚ

/-- Python `w3.to_wei ("1", "ether")`: the minimum balance of `ensuregas`, in Wei. -/
def minWei : Nat := 10 ^ 18

/-- Python `"0x" + "00" * 20`: the null referral address of the move transaction. -/
def zeroAddress : String := "0x" ++ String.join (List.replicate 20 "00")

/-- Python `2**256 - 1`: maximal allowance / nonce value. -/
def maxUint256 : Nat := 2 ^ 256 - 1

/-- Python `ensuregas (addr)`: if the address holds less than `minWei`, set its
balance to `minWei`.  Returns the exception raised, if any, and the trace
of mutating capability calls. -/
def ensuregasRun (env : Env) (addr : String) : Option Exn × List Event :=
  match env.getBalance addr with
  | .error e => (some e, [])
  | .ok bal =>
    if bal < minWei then
      match env.setBalance addr minWei with
      | .error e => (some e, [.setBalance addr minWei])
      | .ok _ => (none, [.setBalance addr minWei])
    else (none, [])

/-- Python `tryRegisterName (ns, name, receiver)`: register the name for the
receiver when it does not exist yet (returning `true`), else `false`. -/
def tryRegisterNameRun (env : Env) (ns name receiver : String) :
    Except Exn Bool × List Event :=
  match env.existsName ns name with
  | .error e => (.error e, [])
  | .ok true => (.ok false, [])
  | .ok false =>
    match ensuregasRun env receiver with
    | (some e, evs) => (.error e, evs)
    | (none, evs) =>
      let evs := evs ++ [.approve env.accountsAddress maxUint256 receiver]
      match env.approve env.accountsAddress maxUint256 receiver with
      | .error e => (.error e, evs)
      | .ok _ =>
        let evs := evs ++ [.mineBlock]
        match env.evmMine with
        | .error e => (.error e, evs)
        | .ok _ =>
          let evs := evs ++ [.register ns name receiver]
          match env.register ns name receiver with
          | .error e => (.error e, evs)
          | .ok _ =>
            let evs := evs ++ [.mineBlock]
            match env.evmMine with
            | .error e => (.error e, evs)
            | .ok _ => (.ok true, evs)

/-- Python `getNameOwner (ns, name)`: owner address and token id of an existing
name. -/
def getNameOwnerRun (env : Env) (ns name : String) :
    Except Exn (String × Nat) :=
  match env.tokenIdForName ns name with
  | .error e => .error e
  | .ok tokenId =>
    match env.ownerOf tokenId with
    | .error e => .error e
    | .ok owner => .ok (owner, tokenId)

/-- Result dictionary of `getname`. -/
structure GetnameResult where
  success : Bool := false
  ns : String
  name : String
  receiver : String
  action : Option String := none
  owner : Option String := none
  previousOwner : Option String := none
  tokenId : Option Nat := none
  error : Option String := none
  errorType : Option String := none
deriving Repr, DecidableEq

/-- The body of `getname` inside its `try` block: the result so far, the
exception that escaped (if any), and the mutating-call trace. -/
def getnameBody (env : Env) (ns name receiver : String) :
    GetnameResult × Option Exn × List Event :=
  let r0 : GetnameResult := { ns := ns, name := name, receiver := receiver }
  match tryRegisterNameRun env ns name receiver with
  | (.error e, evs) => (r0, some e, evs)
  | (.ok true, evs) =>
    ({ r0 with success := true, action := some "registered",
               owner := some receiver }, none, evs)
  | (.ok false, evs) =>
    match getNameOwnerRun env ns name with
    | .error e => (r0, some e, evs)
    | .ok (owner, tokenId) =>
      let r1 := { r0 with previousOwner := some owner, tokenId := some tokenId }
      match ensuregasRun env owner with
      | (some e, evs2) => (r1, some e, evs ++ evs2)
      | (none, evs2) =>
        let evs := evs ++ evs2 ++ [.transferFrom owner receiver tokenId owner]
        match env.transferFrom owner receiver tokenId owner with
        | .error e => (r1, some e, evs)
        | .ok _ =>
          let evs := evs ++ [.mineBlock]
          match env.evmMine with
          | .error e => (r1, some e, evs)
          | .ok _ =>
            ({ r1 with success := true, action := some "transferred",
                       owner := some receiver }, none, evs)

/-- Python `except Exception as e` handler of `getname`. -/
def getnameHandle (p : GetnameResult × Option Exn × List Event) :
    GetnameResult × List Event :=
  match p with
  | (r, none, evs) => (r, evs)
  | (r, some e, evs) => ({ r with error := some e.msg, errorType := some e.ty }, evs)

/-- Python `getname (ns, name, receiver)`: register the name for the receiver when
it does not exist, else transfer it from its current owner. -/
def getname (env : Env) (ns name receiver : String) :
    GetnameResult × List Event :=
  getnameHandle (getnameBody env ns name receiver)

/-- Result dictionary of `sendmove`. -/
structure SendmoveResult where
  success : Bool := false
  ns : String
  name : String
  moveData : Option String := none
  owner : Option String := none
  tokenId : Option Nat := none
  txHash : Option String := none
  message : Option String := none
  error : Option String := none
  errorType : Option String := none
deriving Repr, DecidableEq

/-- The body of `sendmove` inside its `try` block. -/
def sendmoveBody (env : Env) (ns name : String) (mv : Jv) :
    SendmoveResult × Option Exn × List Event :=
  let r0 : SendmoveResult := { ns := ns, name := name }
  let mvStr := canonicalMove mv
  let r1 := { r0 with moveData := some (pyTake mvStr 500) }
  match env.existsName ns name with
  | .error e => (r1, some e, [])
  | .ok false =>
    ({ r1 with error := some ("name " ++ ns ++ "/" ++ name ++ " does not exist yet") },
     none, [])
  | .ok true =>
    match getNameOwnerRun env ns name with
    | .error e => (r1, some e, [])
    | .ok (owner, tokenId) =>
      let r2 := { r1 with owner := some owner, tokenId := some tokenId }
      match ensuregasRun env owner with
      | (some e, evs) => (r2, some e, evs)
      | (none, evs) =>
        let evs := evs ++ [.moveTx ns name mvStr maxUint256 0 zeroAddress owner]
        match env.moveTx ns name mvStr maxUint256 0 zeroAddress owner with
        | .error e => (r2, some e, evs)
        | .ok tx =>
          let r3 := { r2 with txHash := some (txRender tx) }
          let evs := evs ++ [.mineBlock]
          match env.evmMine with
          | .error e => (r3, some e, evs)
          | .ok _ =>
            ({ r3 with success := true,
                       message := some "Move submitted successfully" }, none, evs)

/-- Python `except Exception as e` handler of `sendmove`. -/
def sendmoveHandle (p : SendmoveResult × Option Exn × List Event) :
    SendmoveResult × List Event :=
  match p with
  | (r, none, evs) => (r, evs)
  | (r, some e, evs) => ({ r with error := some e.msg, errorType := some e.ty }, evs)

/-- Python `sendmove (ns, name, mv)`: submit a move for an existing name,
impersonating its owner. -/
def sendmove (env : Env) (ns name : String) (mv : Jv) :
    SendmoveResult × List Event :=
  sendmoveHandle (sendmoveBody env ns name mv)

/-- The normalized subset of character fields put into the result
(`result["character"]`). -/
structure CharView where
  id : Option Int
  owner : Option String
  pos : Option Jv
  speed : Int
  inbuilding : Option String
  faction : Option String
deriving Repr

/-- Result dictionary of `validatecharacterstate`. -/
structure ValidateResult where
  valid : Bool := false
  characterId : Int
  action : String
  error : Option String := none
  errorType : Option String := none
  character : Option CharView := none
  warning : Option String := none
  message : Option String := none
deriving Repr

/-- Python `character.get ("movement") and character["movement"].get ("partialstep", 0) > 0`:
a non-empty movement dictionary whose partial-step counter is positive. -/
def movementInProgress (mov : Option (List (String × Int))) : Bool :=
  match mov with
  | none => false
  | some m => !m.isEmpty && (m.lookup "partialstep").getD 0 > 0

/-- Python `"ongoing" in character and character["ongoing"]`. -/
def ongoingBusy (og : Option Jv) : Bool :=
  match og with
  | none => false
  | some v => pyTruthy v

/-- The body of `validatecharacterstate` inside its `try` block. -/
def validateBody (env : Env) (characterId : Int) (action : String) :
    ValidateResult × Option Exn :=
  let r0 : ValidateResult := { characterId := characterId, action := action }
  match env.getcharacters with
  | .error e => (r0, some e)
  | .ok resp =>
    let charData := resp.getD []
    match charData.find? (fun c => c.id == some characterId) with
    | none =>
      ({ r0 with error := some ("Character " ++ toString characterId ++ " not found") },
       none)
    | some ch =>
      let cv : CharView :=
        { id := ch.id, owner := ch.owner, pos := ch.pos,
          speed := ch.speed.getD 0, inbuilding := ch.inbuilding,
          faction := ch.faction }
      let r1 := { r0 with character := some cv }
      if action = "move" then
        match ch.inbuilding with
        | some b =>
          ({ r1 with error := some ("Character is inside a building (id=" ++ b
                                    ++ "). Must exit first.") }, none)
        | none =>
          let speed := ch.speed.getD 0
          if speed ≤ 0 then
            ({ r1 with error := some ("Character has no movement speed (speed="
                                      ++ toString speed ++ ")") }, none)
          else if ongoingBusy ch.ongoing then
            ({ r1 with error := some "Character is busy with ongoing operation" }, none)
          else
            let w := "Character is already moving, new waypoints " ++
                     "will replace current path"
            let r2 := if movementInProgress ch.movement then
                { r1 with warning := some w }
              else r1
            ({ r2 with valid := true,
                       message := some ("Character can perform " ++ action ++ " action") },
             none)
      else
        ({ r1 with valid := true,
                   message := some ("Character can perform " ++ action ++ " action") },
         none)

/-- Python `except Exception as e` handler of `validatecharacterstate`. -/
def validateHandle (p : ValidateResult × Option Exn) : ValidateResult :=
  match p with
  | (r, none) => r
  | (r, some e) => { r with error := some e.msg, errorType := some e.ty }

/-- Python `validatecharacterstate (characterId, action)`: check against the GSP
state whether the character may perform the action. -/
def validatecharacterstate (env : Env) (characterId : Int) (action : String) :
    ValidateResult :=
  validateHandle (validateBody env characterId action)

/-- Result dictionary of `syncgsp`. -/
structure SyncResult where
  success : Bool := false
  targetBlock : Option String := none
  blockhash : Option String := none
  waitTime : Option ℚ := none
  lastState : Option String := none
  lastBlock : Option String := none
  error : Option String := none
  errorType : Option String := none
deriving Repr, DecidableEq

/-- Python `blk[2:] if blk[:2] == "0x" else blk`: strip a `0x` prefix from the
head block hash. -/
def normalizeHash (s : String) : String :=
  if pyTake s 2 = "0x" then String.mk (s.data.drop 2) else s

/-- Python `maxWait = 30`: the sync-wait deadline in seconds. -/
def maxWait : ℚ := 30

/-- Python `time.sleep (0.1)`: the poll interval in seconds. -/
def sleepSeconds : ℚ := 1 / 10

/-- Python `str (KeyError (k))` renders as the key in quotes. -/
def keyError (k : String) : Exn :=
  { msg := "\x27" ++ k ++ "\x27", ty := "KeyError" }

/-- Outcome of the `while True` polling loop of `syncgsp`, with the index
of the iteration at which the loop ended.  `fuelOut` is an artifact of the
embedding: the loop ran longer than the supplied fuel. -/
inductive LoopOut
  | matched (i : Nat)
  | timedOut (i : Nat) (tag : String) (bh : Option String)
  | raised (e : Exn) (i : Nat)
  | fuelOut (i : Nat)
deriving Repr, DecidableEq

/-- The polling loop of `syncgsp`, iteration `i` onwards: query the GSP
null state; break when it reports `up-to-date` at the target hash; report
a timeout when the deadline has passed; otherwise sleep 100 ms and retry.
The second component counts the `time.sleep (0.1)` calls performed. -/
def syncLoop (env : Env) (blk : String) : Nat → Nat → LoopOut × Nat
  | 0, i => (.fuelOut i, i)
  | fuel + 1, i =>
    match env.polls i with
    | .error e => (.raised e i, i)
    | .ok st =>
      match st.state with
      | none => (.raised (keyError "state") i, i)
      | some tag =>
        let cond : Except Exn Bool :=
          if tag = "up-to-date" then
            match st.blockhash with
            | none => .error (keyError "blockhash")
            | some h => .ok (h == blk)
          else .ok false
        match cond with
        | .error e => (.raised e i, i)
        | .ok true => (.matched i, i)
        | .ok false =>
          if env.checkClock i - env.startClock > maxWait then
            (.timedOut i tag st.blockhash, i)
          else
            syncLoop env blk fuel (i + 1)

/-- Python `str (AssertionError ())` is empty. -/
def assertionError : Exn := { msg := "", ty := "AssertionError" }

/-- Python `round (x, 3)`: the wait time rounded to millisecond precision.
Real-valued clock readings are modelled as rationals. -/
def round3 (q : ℚ) : ℚ := (round (q * 1000) : ℤ) / 1000

/-- The body of `syncgsp` inside its `try` block, given fuel for the
polling loop: `none` when the fuel ran out (an artifact of the embedding;
the Python loop would simply keep polling). -/
def syncgspBody (env : Env) (fuel : Nat) :
    Option (SyncResult × Option Exn × Nat) :=
  let r0 : SyncResult := {}
  match env.headHash with
  | .error e => some (r0, some e, 0)
  | .ok raw =>
    let blk := normalizeHash raw
    if blk.length = 64 then
      let r1 := { r0 with targetBlock := some blk }
      match syncLoop env blk fuel 0 with
      | (.fuelOut _, _) => none
      | (.raised e _, n) => some (r1, some e, n)
      | (.timedOut _ tag bh, n) =>
        some ({ r1 with
                error := some "Timeout waiting for GSP sync after 30 seconds",
                lastState := some tag,
                lastBlock := some (bh.getD "unknown") }, none, n)
      | (.matched _, n) =>
        some ({ r1 with success := true, blockhash := some blk,
                        waitTime := some (round3 (env.finalClock - env.startClock)) },
              none, n)
    else
      some (r0, some assertionError, 0)

/-- Python `except Exception as e` handler of `syncgsp`. -/
def syncgspHandle (p : SyncResult × Option Exn × Nat) : SyncResult × Nat :=
  match p with
  | (r, none, n) => (r, n)
  | (r, some e, n) => ({ r with error := some e.msg, errorType := some e.ty }, n)

/-- Python `syncgsp ()`: wait (fuel-bounded in the embedding) for the GSP to be
synced up to the current chain head.  Also returns the number of
`time.sleep (0.1)` calls performed. -/
def syncgsp (env : Env) (fuel : Nat) : Option (SyncResult × Nat) :=
  (syncgspBody env fuel).map syncgspHandle

/-- A 64-character block hash used by the concrete test environments. -/
def h64 : String := String.join (List.replicate 32 "ab")

/-- A concrete, fully functioning environment: the name `p/domob` exists
with owner `0xOWNER` and token id 42, all addresses are funded, the GSP
reports one character and becomes up-to-date at the third poll. -/
def baseEnv : Env where
  accountsAddress := "0xACCTS"
  existsName := fun _ n => .ok (n == "domob")
  tokenIdForName := fun _ _ => .ok 42
  ownerOf := fun _ => .ok "0xOWNER"
  getBalance := fun _ => .ok (2 * minWei)
  setBalance := fun _ _ => .ok ()
  approve := fun _ _ _ => .ok ()
  register := fun _ _ _ => .ok ()
  transferFrom := fun _ _ _ _ => .ok ()
  moveTx := fun _ _ _ _ _ _ _ => .ok { hexRepr := some "0xfeed", strRepr := "tx" }
  evmMine := .ok ()
  getcharacters := .ok (some [{ id := some 7, owner := some "0xOWNER",
                                speed := some 5 }])
  headHash := .ok ("0x" ++ h64)
  polls := fun i =>
    if i < 2 then .ok { state := some "catching-up", blockhash := some "00" }
    else .ok { state := some "up-to-date", blockhash := some h64 }
  startClock := 100
  checkClock := fun i => 100 + i
  finalClock := 101

-- Claim C1

/-- C1: when the registry reports that the name `(ns, name)` does not
exist, `sendmove` returns `success = false` with the not-found error
message, and its trace of mutating capability calls is empty: no balance
was set, no transaction submitted, no block mined. -/
theorem c1_sendmove_missing_name_no_mutation (env : Env) (ns name : String)
    (mv : Jv) (h : env.existsName ns name = .ok false) :
    (sendmove env ns name mv).1.success = false ∧
    (sendmove env ns name mv).1.error =
      some ("name " ++ ns ++ "/" ++ name ++ " does not exist yet") ∧
    (sendmove env ns name mv).2 = [] := by
  simp [sendmove, sendmoveBody, sendmoveHandle, h]

/-- Witness for C1: a concrete run on a missing name. -/
theorem c1_sendmove_missing_name_no_mutation_witness :
    (sendmove baseEnv "p" "missing" (.str "mv")).1.success = false ∧
    (sendmove baseEnv "p" "missing" (.str "mv")).1.error =
      some ("name " ++ "p" ++ "/" ++ "missing" ++ " does not exist yet") ∧
    (sendmove baseEnv "p" "missing" (.str "mv")).2 = [] :=
  c1_sendmove_missing_name_no_mutation baseEnv "p" "missing" (.str "mv") rfl

-- Claim C9

/-- C9: `ensuregas` is idempotent.  With a balance of at least `minWei`
it performs no mutating call at all; with a lower balance it performs
exactly one balance-setting call, to exactly `minWei`; and hence a
repeated call, which then reads the balance `minWei`, performs no further
mutation. -/
theorem c9_ensuregas_idempotent :
    (∀ env addr bal, env.getBalance addr = .ok bal → minWei ≤ bal →
      ensuregasRun env addr = (none, [])) ∧
    (∀ env addr bal, env.getBalance addr = .ok bal → bal < minWei →
      env.setBalance addr minWei = .ok () →
      ensuregasRun env addr = (none, [.setBalance addr minWei])) ∧
    (∀ env addr, env.getBalance addr = .ok minWei →
      ensuregasRun env addr = (none, [])) := by
  refine ⟨?_, ?_, ?_⟩
  · intro env addr bal hb hge
    simp [ensuregasRun, hb, Nat.not_lt.mpr hge]
  · intro env addr bal hb hlt hset
    simp [ensuregasRun, hb, hlt, hset]
  · intro env addr hb
    simp [ensuregasRun, hb]

/-- Witness for C9: concrete runs with a sufficient and an insufficient
balance. -/
theorem c9_ensuregas_idempotent_witness :
    ensuregasRun baseEnv "0xA" = (none, []) ∧
    ensuregasRun { baseEnv with getBalance := fun _ => .ok 5 } "0xA" =
      (none, [.setBalance "0xA" minWei]) ∧
    ensuregasRun { baseEnv with getBalance := fun _ => .ok minWei } "0xA" =
      (none, []) :=
  ⟨c9_ensuregas_idempotent.1 baseEnv "0xA" (2 * minWei) rfl (by norm_num [minWei]),
   c9_ensuregas_idempotent.2.1 { baseEnv with getBalance := fun _ => .ok 5 }
     "0xA" 5 rfl (by norm_num [minWei]) rfl,
   c9_ensuregas_idempotent.2.2 { baseEnv with getBalance := fun _ => .ok minWei }
     "0xA" rfl⟩

-- Claim C2

/-- C2: the outcome of `getname` is keyed solely on name existence.  When
the name does not exist (and the capability calls of the registration path
succeed), it is registered: `success = true`, `action = "registered"`,
`owner = receiver`.  When it exists — for any current owner, including the
receiver itself — it is transferred: `success = true`,
`action = "transferred"`, `owner = receiver`, with `previousOwner` the
prior owner and `tokenId` the name's token id. -/
theorem c2_getname_keyed_on_existence :
    (∀ env ns name receiver, env.existsName ns name = .ok false →
      (ensuregasRun env receiver).1 = none →
      env.approve env.accountsAddress maxUint256 receiver = .ok () →
      env.evmMine = .ok () →
      env.register ns name receiver = .ok () →
      (getname env ns name receiver).1.success = true ∧
      (getname env ns name receiver).1.action = some "registered" ∧
      (getname env ns name receiver).1.owner = some receiver) ∧
    (∀ env ns name receiver prev tid, env.existsName ns name = .ok true →
      env.tokenIdForName ns name = .ok tid →
      env.ownerOf tid = .ok prev →
      (ensuregasRun env prev).1 = none →
      env.transferFrom prev receiver tid prev = .ok () →
      env.evmMine = .ok () →
      (getname env ns name receiver).1.success = true ∧
      (getname env ns name receiver).1.action = some "transferred" ∧
      (getname env ns name receiver).1.owner = some receiver ∧
      (getname env ns name receiver).1.previousOwner = some prev ∧
      (getname env ns name receiver).1.tokenId = some tid) := by
  constructor
  · intro env ns name receiver hex hgas happrove hmine hreg
    rcases hg : ensuregasRun env receiver with ⟨oe, gevs⟩
    rw [hg] at hgas; subst hgas
    simp [getname, getnameBody, getnameHandle, tryRegisterNameRun, hex, hg,
          happrove, hmine, hreg]
  · intro env ns name receiver prev tid hex htid howner hgas htrans hmine
    rcases hg : ensuregasRun env prev with ⟨oe, gevs⟩
    rw [hg] at hgas; subst hgas
    simp [getname, getnameBody, getnameHandle, tryRegisterNameRun,
          getNameOwnerRun, hex, htid, howner, hg, htrans, hmine]

/-- Witness for C2: a concrete registration of a fresh name and a
concrete transfer of an existing one. -/
theorem c2_getname_keyed_on_existence_witness :
    ((getname baseEnv "p" "fresh" "0xRCV").1.success = true ∧
     (getname baseEnv "p" "fresh" "0xRCV").1.action = some "registered" ∧
     (getname baseEnv "p" "fresh" "0xRCV").1.owner = some "0xRCV") ∧
    ((getname baseEnv "p" "domob" "0xRCV").1.success = true ∧
     (getname baseEnv "p" "domob" "0xRCV").1.action = some "transferred" ∧
     (getname baseEnv "p" "domob" "0xRCV").1.owner = some "0xRCV" ∧
     (getname baseEnv "p" "domob" "0xRCV").1.previousOwner = some "0xOWNER" ∧
     (getname baseEnv "p" "domob" "0xRCV").1.tokenId = some 42) :=
  ⟨c2_getname_keyed_on_existence.1 baseEnv "p" "fresh" "0xRCV"
     rfl (by simp [ensuregasRun, baseEnv, minWei]) rfl rfl rfl,
   c2_getname_keyed_on_existence.2 baseEnv "p" "domob" "0xRCV" "0xOWNER" 42
     rfl rfl rfl (by simp [ensuregasRun, baseEnv, minWei]) rfl rfl⟩

-- Claim C3

/-- C3: for a character snapshot found for the given id and action
`"move"`, the checks apply in order, returning `valid = false` at the
first failing one: a non-null inside-building reference (error naming the
building, for any speed); then non-positive speed (error stating the
numeric speed); then a truthy ongoing-operation value (busy).  When all
checks pass but the movement descriptor shows a positive partial-step
counter, a warning is attached while `valid` stays `true`. -/
theorem c3_validate_move_check_order (env : Env) (cid : Int)
    (chars : Option (List Character)) (ch : Character)
    (henv : env.getcharacters = .ok chars)
    (hfind : (chars.getD []).find? (fun c => c.id == some cid) = some ch) :
    (∀ b, ch.inbuilding = some b →
      (validatecharacterstate env cid "move").valid = false ∧
      (validatecharacterstate env cid "move").error =
        some ("Character is inside a building (id=" ++ b ++ "). Must exit first.")) ∧
    (ch.inbuilding = none → ch.speed.getD 0 ≤ 0 →
      (validatecharacterstate env cid "move").valid = false ∧
      (validatecharacterstate env cid "move").error =
        some ("Character has no movement speed (speed=" ++
              toString (ch.speed.getD 0) ++ ")")) ∧
    (ch.inbuilding = none → 0 < ch.speed.getD 0 → ongoingBusy ch.ongoing = true →
      (validatecharacterstate env cid "move").valid = false ∧
      (validatecharacterstate env cid "move").error =
        some "Character is busy with ongoing operation") ∧
    (ch.inbuilding = none → 0 < ch.speed.getD 0 → ongoingBusy ch.ongoing = false →
      movementInProgress ch.movement = true →
      (validatecharacterstate env cid "move").valid = true ∧
      (validatecharacterstate env cid "move").warning =
        some ("Character is already moving, new waypoints " ++
              "will replace current path")) := by
  refine ⟨?_, ?_, ?_, ?_⟩
  · intro b hb
    simp [validatecharacterstate, validateBody, validateHandle, henv, hfind, hb]
  · intro hb hsp
    simp [validatecharacterstate, validateBody, validateHandle, henv, hfind, hb, hsp]
  · intro hb hsp hog
    simp [validatecharacterstate, validateBody, validateHandle, henv, hfind, hb,
          Int.not_le.mpr hsp, hog]
  · intro hb hsp hog hmov
    simp [validatecharacterstate, validateBody, validateHandle, henv, hfind, hb,
          Int.not_le.mpr hsp, hog, hmov]

/-- A character inside a building. -/
def chIn : Character :=
  { id := some 7, inbuilding := some "building-3", speed := some 5 }

/-- A character with zero speed. -/
def chSlow : Character := { id := some 5, speed := some 0 }

/-- A character busy with an ongoing operation. -/
def chBusy : Character :=
  { id := some 3, speed := some 2, ongoing := some (.bool true) }

/-- A character already moving, with a positive partial step. -/
def chMoving : Character :=
  { id := some 4, speed := some 2, movement := some [("partialstep", 1)] }

/-- An enclosed, immobile, busy character (for the non-move action). -/
def chStuck : Character :=
  { id := some 9, inbuilding := some "b1", speed := some 0,
    ongoing := some (.bool true) }

/-- Environment whose GSP reports the five characters above. -/
def envCh : Env :=
  { baseEnv with getcharacters := Except.ok (some [chIn, chSlow, chBusy, chMoving, chStuck]) }

/-- Witness for C3: concrete characters exercising each of the four
branches. -/
theorem c3_validate_move_check_order_witness :
    ((validatecharacterstate envCh 7 "move").valid = false ∧
     (validatecharacterstate envCh 7 "move").error =
       some ("Character is inside a building (id=" ++ "building-3" ++
             "). Must exit first.")) ∧
    ((validatecharacterstate envCh 5 "move").valid = false ∧
     (validatecharacterstate envCh 5 "move").error =
       some ("Character has no movement speed (speed=" ++
             toString ((some (0 : Int)).getD 0) ++ ")")) ∧
    ((validatecharacterstate envCh 3 "move").valid = false) ∧
    ((validatecharacterstate envCh 4 "move").valid = true ∧
     (validatecharacterstate envCh 4 "move").warning =
       some ("Character is already moving, new waypoints " ++
             "will replace current path")) :=
  ⟨(c3_validate_move_check_order envCh 7
      (some [chIn, chSlow, chBusy, chMoving, chStuck]) chIn rfl rfl).1
      "building-3" rfl,
   (c3_validate_move_check_order envCh 5
      (some [chIn, chSlow, chBusy, chMoving, chStuck]) chSlow rfl rfl).2.1
      rfl (by decide),
   ((c3_validate_move_check_order envCh 3
      (some [chIn, chSlow, chBusy, chMoving, chStuck]) chBusy rfl rfl).2.2.1
      rfl (by decide) rfl).1,
   (c3_validate_move_check_order envCh 4
      (some [chIn, chSlow, chBusy, chMoving, chStuck]) chMoving rfl rfl).2.2.2
      rfl (by decide) rfl rfl⟩

-- Claim C10

/-- C10: for any action other than `"move"`, a character found in the GSP
entity list validates with no action-specific checks: `valid = true`, no
error and no warning. -/
theorem c10_validate_non_move_always_valid (env : Env) (cid : Int)
    (action : String) (chars : Option (List Character)) (ch : Character)
    (henv : env.getcharacters = .ok chars)
    (hfind : (chars.getD []).find? (fun c => c.id == some cid) = some ch)
    (haction : action ≠ "move") :
    (validatecharacterstate env cid action).valid = true ∧
    (validatecharacterstate env cid action).error = none ∧
    (validatecharacterstate env cid action).warning = none ∧
    (validatecharacterstate env cid action).message =
      some ("Character can perform " ++ action ++ " action") := by
  simp [validatecharacterstate, validateBody, validateHandle, henv, hfind, haction]

/-- Witness for C10: a busy, enclosed, immobile character may still
perform a non-move action. -/
theorem c10_validate_non_move_always_valid_witness :
    (validatecharacterstate envCh 9 "attack").valid = true ∧
    (validatecharacterstate envCh 9 "attack").error = none ∧
    (validatecharacterstate envCh 9 "attack").warning = none ∧
    (validatecharacterstate envCh 9 "attack").message =
      some ("Character can perform " ++ "attack" ++ " action") :=
  c10_validate_non_move_always_valid envCh 9 "attack"
    (some [chIn, chSlow, chBusy, chMoving, chStuck]) chStuck rfl rfl (by decide)

-- Claim C4

/-- The i-th GSP poll returns a well-formed state that does not satisfy
the sync condition, observed while the deadline has not yet passed. -/
def pollMisses (env : Env) (blk : String) (i : Nat) : Prop :=
  ∃ st tag, env.polls i = .ok st ∧ st.state = some tag ∧
    (tag = "up-to-date" → ∃ h, st.blockhash = some h ∧ h ≠ blk) ∧
    env.checkClock i - env.startClock ≤ maxWait

/-- One missed poll within the deadline makes the wait loop sleep and
move on to the next iteration. -/
theorem syncLoop_miss_step (env : Env) (blk : String) (k fuel : Nat)
    (h : pollMisses env blk k) :
    syncLoop env blk (fuel + 1) k = syncLoop env blk fuel (k + 1) := by
  obtain ⟨st, tag, hp, hs, hnm, hcl⟩ := h
  by_cases htag : tag = "up-to-date"
  · obtain ⟨hh, hbh, hne⟩ := hnm htag
    subst htag
    simp [syncLoop, hp, hs, hbh, beq_eq_false_iff_ne.mpr hne, not_lt.mpr hcl]
  · simp [syncLoop, hp, hs, htag, not_lt.mpr hcl]

/-- The wait loop breaks at the first poll that reports `up-to-date` at
the target hash, after one 100 ms sleep per earlier missed poll. -/
theorem syncLoop_matched (env : Env) (blk : String) :
    ∀ (i k fuel : Nat), (∀ j, j < i → pollMisses env blk (k + j)) →
      (∃ st, env.polls (k + i) = .ok st ∧ st.state = some "up-to-date" ∧
             st.blockhash = some blk) →
      i < fuel →
      syncLoop env blk fuel k = (.matched (k + i), k + i) := by
  intro i
  induction i with
  | zero =>
    intro k fuel _ hmatch hfuel
    obtain ⟨st, hp, hs, hb⟩ := hmatch
    cases fuel with
    | zero => omega
    | succ f => simp_all [syncLoop]
  | succ n ih =>
    intro k fuel hmiss hmatch hfuel
    cases fuel with
    | zero => omega
    | succ f =>
      rw [syncLoop_miss_step env blk k f (by simpa using hmiss 0 (Nat.succ_pos n))]
      have := ih (k + 1) f
        (fun j hj => by
          have := hmiss (j + 1) (by omega)
          simpa [Nat.add_assoc, Nat.add_comm 1 j] using this)
        (by obtain ⟨st, hp, hs, hb⟩ := hmatch
            exact ⟨st, by simpa [Nat.add_assoc, Nat.add_comm 1 n] using hp, hs, hb⟩)
        (by omega)
      simpa [Nat.add_assoc, Nat.add_comm 1 n] using this

/-- The wait loop reports a timeout at the first missed poll observed
after the deadline, recording that poll's state tag and block hash. -/
theorem syncLoop_timeout (env : Env) (blk : String) :
    ∀ (i k fuel : Nat) (st : NullState) (tag : String),
      (∀ j, j < i → pollMisses env blk (k + j)) →
      env.polls (k + i) = .ok st → st.state = some tag →
      (tag = "up-to-date" → ∃ h, st.blockhash = some h ∧ h ≠ blk) →
      maxWait < env.checkClock (k + i) - env.startClock →
      i < fuel →
      syncLoop env blk fuel k = (.timedOut (k + i) tag st.blockhash, k + i) := by
  intro i
  induction i with
  | zero =>
    intro k fuel st tag _ hp hs hnm hcl hfuel
    cases fuel with
    | zero => omega
    | succ f =>
      by_cases htag : tag = "up-to-date"
      · obtain ⟨hh, hbh, hne⟩ := hnm htag
        subst htag
        simp_all [syncLoop, beq_eq_false_iff_ne.mpr hne]
      · simp_all [syncLoop]
  | succ n ih =>
    intro k fuel st tag hmiss hp hs hnm hcl hfuel
    cases fuel with
    | zero => omega
    | succ f =>
      rw [syncLoop_miss_step env blk k f (by simpa using hmiss 0 (Nat.succ_pos n))]
      have := ih (k + 1) f st tag
        (fun j hj => by
          have := hmiss (j + 1) (by omega)
          simpa [Nat.add_assoc, Nat.add_comm 1 j] using this)
        (by simpa [Nat.add_assoc, Nat.add_comm 1 n] using hp) hs hnm
        (by simpa [Nat.add_assoc, Nat.add_comm 1 n] using hcl)
        (by omega)
      simpa [Nat.add_assoc, Nat.add_comm 1 n] using this

/-- Rounding a non-negative wait time keeps it non-negative. -/
theorem round3_nonneg {q : ℚ} (h : 0 ≤ q) : 0 ≤ round3 q := by
  unfold round3
  have h0 : (0 : ℤ) ≤ round (q * 1000) := by
    rw [round_eq]
    exact Int.floor_nonneg.mpr (by linarith)
  have : (0 : ℚ) ≤ (round (q * 1000) : ℤ) := by exact_mod_cast h0
  linarith

/-- C4: `syncgsp` captures the chain head hash (normalized) as target and
polls the GSP state, sleeping `sleepSeconds = 100 ms` once per missed
poll.  It succeeds — `success = true`, `blockhash` equal to the target,
non-negative `waitTime` — as soon as a poll reports the tag `up-to-date`
with the target hash, every earlier poll having missed within the
30-second deadline; and it fails with the timeout error, recording the
last observed state tag and block hash, at the first missed poll observed
past the deadline. -/
theorem c4_syncgsp_poll_until_deadline :
    sleepSeconds = 1 / 10 ∧ maxWait = 30 ∧
    (∀ env fuel i raw, env.headHash = .ok raw →
      (normalizeHash raw).length = 64 →
      (∀ j, j < i → pollMisses env (normalizeHash raw) j) →
      (∃ st, env.polls i = .ok st ∧ st.state = some "up-to-date" ∧
             st.blockhash = some (normalizeHash raw)) →
      i < fuel → env.startClock ≤ env.finalClock →
      ∃ r, syncgsp env fuel = some (r, i) ∧ r.success = true ∧
        r.targetBlock = some (normalizeHash raw) ∧
        r.blockhash = some (normalizeHash raw) ∧
        r.error = none ∧
        ∃ w, r.waitTime = some w ∧ 0 ≤ w) ∧
    (∀ env fuel i raw st tag, env.headHash = .ok raw →
      (normalizeHash raw).length = 64 →
      (∀ j, j < i → pollMisses env (normalizeHash raw) j) →
      env.polls i = .ok st → st.state = some tag →
      (tag = "up-to-date" → ∃ h, st.blockhash = some h ∧ h ≠ normalizeHash raw) →
      maxWait < env.checkClock i - env.startClock →
      i < fuel →
      ∃ r, syncgsp env fuel = some (r, i) ∧ r.success = false ∧
        r.error = some "Timeout waiting for GSP sync after 30 seconds" ∧
        r.lastState = some tag ∧
        r.lastBlock = some (st.blockhash.getD "unknown")) := by
  refine ⟨rfl, rfl, ?_, ?_⟩
  · intro env fuel i raw hhead hlen hmiss hmatch hfuel hclk
    have hloop := syncLoop_matched env (normalizeHash raw) i 0 fuel
      (by simpa using hmiss) (by simpa using hmatch) hfuel
    rw [Nat.zero_add] at hloop
    have heq : syncgsp env fuel = some
        ({ success := true, targetBlock := some (normalizeHash raw),
           blockhash := some (normalizeHash raw),
           waitTime := some (round3 (env.finalClock - env.startClock)) }, i) := by
      simp [syncgsp, syncgspBody, syncgspHandle, hhead, hlen, hloop]
    exact ⟨_, heq, rfl, rfl, rfl, rfl, round3 (env.finalClock - env.startClock),
           rfl, round3_nonneg (by linarith)⟩
  · intro env fuel i raw st tag hhead hlen hmiss hp hs hnm hcl hfuel
    have hloop := syncLoop_timeout env (normalizeHash raw) i 0 fuel st tag
      (by simpa using hmiss) (by simpa using hp) hs hnm (by simpa using hcl) hfuel
    rw [Nat.zero_add] at hloop
    have heq : syncgsp env fuel = some
        ({ success := false, targetBlock := some (normalizeHash raw),
           error := some "Timeout waiting for GSP sync after 30 seconds",
           lastState := some tag,
           lastBlock := some (st.blockhash.getD "unknown") }, i) := by
      simp [syncgsp, syncgspBody, syncgspHandle, hhead, hlen, hloop]
    exact ⟨_, heq, rfl, rfl, rfl, rfl⟩

/-- Environment in which the GSP never catches up and the deadline has
already passed at the first check. -/
def envStale : Env :=
  { baseEnv with
      polls := fun _ => .ok { state := some "catching-up", blockhash := some "00" },
      checkClock := fun _ => 200 }

/-- Witness for C4: in `baseEnv` the GSP converges at the third poll and
`syncgsp` succeeds after two sleeps; in `envStale` the deadline has passed
at the first check and `syncgsp` reports the timeout with the observed
state. -/
theorem c4_syncgsp_poll_until_deadline_witness :
    (∃ r, syncgsp baseEnv 5 = some (r, 2) ∧ r.success = true ∧
       r.targetBlock = some (normalizeHash ("0x" ++ h64)) ∧
       r.blockhash = some (normalizeHash ("0x" ++ h64)) ∧
       r.error = none ∧ ∃ w, r.waitTime = some w ∧ 0 ≤ w) ∧
    (∃ r, syncgsp envStale 5 = some (r, 0) ∧ r.success = false ∧
       r.error = some "Timeout waiting for GSP sync after 30 seconds" ∧
       r.lastState = some "catching-up" ∧
       r.lastBlock = some ((some "00").getD "unknown")) :=
  ⟨c4_syncgsp_poll_until_deadline.2.2.1 baseEnv 5 2 ("0x" ++ h64) rfl (by decide)
     (by intro j hj
         refine ⟨{ state := some "catching-up", blockhash := some "00" },
                 "catching-up", ?_, rfl, by decide, ?_⟩
         · show (if j < 2 then _ else _) = _
           rw [if_pos hj]
         · show (100 + (j : ℚ)) - 100 ≤ maxWait
           have : (j : ℚ) ≤ 2 := by exact_mod_cast Nat.le_of_lt_succ (Nat.lt_succ_of_lt hj)
           rw [maxWait]; linarith)
     ⟨{ state := some "up-to-date", blockhash := some h64 }, rfl, rfl, rfl⟩
     (by decide) (by norm_num [baseEnv]),
   c4_syncgsp_poll_until_deadline.2.2.2 envStale 5 0 ("0x" ++ h64)
     { state := some "catching-up", blockhash := some "00" } "catching-up"
     rfl (by decide) (by intro j hj; omega) rfl rfl (by decide)
     (by show maxWait < (200 : ℚ) - 100; rw [maxWait]; norm_num) (by decide)⟩

-- Claim C5

/-- If the body of `getname` ended in an exception, the partial result it
built never has the success flag set. -/
theorem getnameBody_exn (env : Env) (ns name receiver : String) (e : Exn)
    (h : (getnameBody env ns name receiver).2.1 = some e) :
    (getnameBody env ns name receiver).1.success = false := by
  rcases h1 : tryRegisterNameRun env ns name receiver with ⟨res, evs⟩
  match res with
  | .error e1 => simp [getnameBody, h1]
  | .ok true => simp [getnameBody, h1] at h
  | .ok false =>
    rcases h2 : getNameOwnerRun env ns name with e2 | ⟨owner, tid⟩
    · simp [getnameBody, h1, h2]
    · rcases h3 : ensuregasRun env owner with ⟨oe3, evs3⟩
      match oe3 with
      | some e3 => simp [getnameBody, h1, h2, h3]
      | none =>
        rcases h4 : env.transferFrom owner receiver tid owner with e4 | u4
        · simp [getnameBody, h1, h2, h3, h4]
        · rcases h5 : env.evmMine with e5 | u5
          · simp [getnameBody, h1, h2, h3, h4, h5]
          · simp [getnameBody, h1, h2, h3, h4, h5] at h

/-- If the body of `sendmove` ended in an exception, the partial result it
built never has the success flag set. -/
theorem sendmoveBody_exn (env : Env) (ns name : String) (mv : Jv) (e : Exn)
    (h : (sendmoveBody env ns name mv).2.1 = some e) :
    (sendmoveBody env ns name mv).1.success = false := by
  rcases h1 : env.existsName ns name with e1 | b
  · simp [sendmoveBody, h1]
  · match b with
    | false => simp [sendmoveBody, h1]
    | true =>
      rcases h2 : getNameOwnerRun env ns name with e2 | ⟨owner, tid⟩
      · simp [sendmoveBody, h1, h2]
      · rcases h3 : ensuregasRun env owner with ⟨oe3, evs3⟩
        match oe3 with
        | some e3 => simp [sendmoveBody, h1, h2, h3]
        | none =>
          rcases h4 : env.moveTx ns name (canonicalMove mv) maxUint256 0
              zeroAddress owner with e4 | tx
          · simp [sendmoveBody, h1, h2, h3, h4]
          · rcases h5 : env.evmMine with e5 | u5
            · simp [sendmoveBody, h1, h2, h3, h4, h5]
            · simp [sendmoveBody, h1, h2, h3, h4, h5] at h

/-- If the body of `validatecharacterstate` ended in an exception, the
partial result it built never has the valid flag set. -/
theorem validateBody_exn (env : Env) (cid : Int) (action : String) (e : Exn)
    (h : (validateBody env cid action).2 = some e) :
    (validateBody env cid action).1.valid = false := by
  rcases h1 : env.getcharacters with e1 | chars
  · simp [validateBody, h1]
  · rcases h2 : (chars.getD []).find? (fun c => c.id == some cid) with _ | ch
    · simp [validateBody, h1, h2]
    · by_cases h3 : action = "move"
      · subst h3
        rcases h4 : ch.inbuilding with _ | b
        · by_cases h5 : ch.speed.getD 0 ≤ 0
          · simp [validateBody, h1, h2, h4, h5]
          · by_cases h6 : ongoingBusy ch.ongoing
            · simp [validateBody, h1, h2, h4, h5, h6]
            · simp [validateBody, h1, h2, h4, h5, h6] at h
        · simp [validateBody, h1, h2, h4]
      · simp [validateBody, h1, h2, h3] at h

/-- If the body of `syncgsp` ended in an exception, the partial result it
built never has the success flag set. -/
theorem syncgspBody_exn (env : Env) (fuel : Nat) (r : SyncResult) (e : Exn)
    (n : Nat) (h : syncgspBody env fuel = some (r, some e, n)) :
    r.success = false := by
  rcases h1 : env.headHash with e1 | raw
  · simp [syncgspBody, h1] at h
    rcases h with ⟨hr, _⟩
    simp [← hr]
  · by_cases h2 : (normalizeHash raw).length = 64
    · rcases h3 : syncLoop env (normalizeHash raw) fuel 0 with ⟨out, m⟩
      match out with
      | .fuelOut i => simp [syncgspBody, h1, h2, h3] at h
      | .raised e3 i =>
        simp [syncgspBody, h1, h2, h3] at h
        rcases h with ⟨hr, _⟩
        simp [← hr]
      | .timedOut i tag bh => simp [syncgspBody, h1, h2, h3] at h
      | .matched i => simp [syncgspBody, h1, h2, h3] at h
    · simp [syncgspBody, h1, h2] at h
      rcases h with ⟨hr, _⟩
      simp [← hr]

/-- C5: every fault raised by a capability call inside one of the four
workflows is caught at the workflow boundary and converted into the
structured result record — success (or valid) false, `error` carrying the
fault's message and `errorType` its type name; no fault escapes to the
caller. -/
theorem c5_faults_converted_at_boundary :
    (∀ env ns name receiver e, (getnameBody env ns name receiver).2.1 = some e →
      (getname env ns name receiver).1.success = false ∧
      (getname env ns name receiver).1.error = some e.msg ∧
      (getname env ns name receiver).1.errorType = some e.ty) ∧
    (∀ env ns name mv e, (sendmoveBody env ns name mv).2.1 = some e →
      (sendmove env ns name mv).1.success = false ∧
      (sendmove env ns name mv).1.error = some e.msg ∧
      (sendmove env ns name mv).1.errorType = some e.ty) ∧
    (∀ env cid action e, (validateBody env cid action).2 = some e →
      (validatecharacterstate env cid action).valid = false ∧
      (validatecharacterstate env cid action).error = some e.msg ∧
      (validatecharacterstate env cid action).errorType = some e.ty) ∧
    (∀ env fuel r e n, syncgspBody env fuel = some (r, some e, n) →
      ∃ r2, syncgsp env fuel = some (r2, n) ∧ r2.success = false ∧
        r2.error = some e.msg ∧ r2.errorType = some e.ty) := by
  refine ⟨?_, ?_, ?_, ?_⟩
  · intro env ns name receiver e h
    have hs := getnameBody_exn env ns name receiver e h
    rcases hb : getnameBody env ns name receiver with ⟨r, oe, evs⟩
    rw [hb] at h hs
    simp at h hs
    subst h
    simp [getname, hb, getnameHandle, hs]
  · intro env ns name mv e h
    have hs := sendmoveBody_exn env ns name mv e h
    rcases hb : sendmoveBody env ns name mv with ⟨r, oe, evs⟩
    rw [hb] at h hs
    simp at h hs
    subst h
    simp [sendmove, hb, sendmoveHandle, hs]
  · intro env cid action e h
    have hs := validateBody_exn env cid action e h
    rcases hb : validateBody env cid action with ⟨r, oe⟩
    rw [hb] at h hs
    simp at h hs
    subst h
    simp [validatecharacterstate, hb, validateHandle, hs]
  · intro env fuel r e n h
    have hs := syncgspBody_exn env fuel r e n h
    refine ⟨{ r with error := some e.msg, errorType := some e.ty }, ?_, ?_, rfl, rfl⟩
    · simp [syncgsp, h, syncgspHandle]
    · simp [hs]

/-- Environment whose registry, GSP and chain-head calls all raise. -/
def envFault : Env :=
  { baseEnv with
      existsName := fun _ _ => .error { msg := "boom", ty := "RuntimeError" },
      getcharacters := .error { msg := "gsp down", ty := "ConnectionError" },
      headHash := .error { msg := "no head", ty := "BlockNotFound" } }

/-- Witness for C5: concrete faulting runs of all four workflows. -/
theorem c5_faults_converted_at_boundary_witness :
    ((getname envFault "p" "x" "0xR").1.success = false ∧
     (getname envFault "p" "x" "0xR").1.error = some "boom" ∧
     (getname envFault "p" "x" "0xR").1.errorType = some "RuntimeError") ∧
    ((sendmove envFault "p" "x" (.str "m")).1.success = false ∧
     (sendmove envFault "p" "x" (.str "m")).1.error = some "boom" ∧
     (sendmove envFault "p" "x" (.str "m")).1.errorType = some "RuntimeError") ∧
    ((validatecharacterstate envFault 7 "move").valid = false ∧
     (validatecharacterstate envFault 7 "move").error = some "gsp down" ∧
     (validatecharacterstate envFault 7 "move").errorType = some "ConnectionError") ∧
    (∃ r2, syncgsp envFault 3 = some (r2, 0) ∧ r2.success = false ∧
      r2.error = some "no head" ∧ r2.errorType = some "BlockNotFound") :=
  ⟨c5_faults_converted_at_boundary.1 envFault "p" "x" "0xR"
     { msg := "boom", ty := "RuntimeError" } rfl,
   c5_faults_converted_at_boundary.2.1 envFault "p" "x" (.str "m")
     { msg := "boom", ty := "RuntimeError" } rfl,
   c5_faults_converted_at_boundary.2.2.1 envFault 7 "move"
     { msg := "gsp down", ty := "ConnectionError" } rfl,
   c5_faults_converted_at_boundary.2.2.2 envFault 3 {}
     { msg := "no head", ty := "BlockNotFound" } 0 rfl⟩

-- Claim C8

/-- Python `ensuregas` emits at most its one balance-setting call. -/
theorem ensuregasRun_events (env : Env) (a : String) :
    (ensuregasRun env a).2 = [] ∨
    (ensuregasRun env a).2 = [.setBalance a minWei] := by
  rcases hg : env.getBalance a with e | bal
  · left; simp [ensuregasRun, hg]
  · by_cases hb : bal < minWei
    · rcases hs : env.setBalance a minWei with e | u
      · right; simp [ensuregasRun, hg, hb, hs]
      · right; simp [ensuregasRun, hg, hb, hs]
    · left; simp [ensuregasRun, hg, hb]

/-- The truncated slice is an actual prefix: concatenating it with the
rest of the characters restores the full string. -/
theorem pyTake_append_drop (s : String) (n : Nat) :
    pyTake s n ++ String.mk (s.data.drop n) = s := by
  cases s with
  | mk data =>
    show String.mk (data.take n ++ data.drop n) = String.mk data
    rw [List.take_append_drop]

/-- The truncated slice never exceeds the bound. -/
theorem pyTake_length_le (s : String) (n : Nat) : (pyTake s n).length ≤ n := by
  show (s.data.take n).length ≤ n
  exact List.length_take_le n s.data

/-- C8: the `moveData` reported by `sendmove` is always the first 500
characters of the canonical string form of the payload — a prefix of the
full canonical string, of length at most 500 — while every move
transaction submitted carries the full, untruncated canonical string. -/
theorem c8_movedata_truncated_tx_full (env : Env) (ns name : String) (mv : Jv) :
    (sendmove env ns name mv).1.moveData =
      some (pyTake (canonicalMove mv) 500) ∧
    (pyTake (canonicalMove mv) 500).length ≤ 500 ∧
    pyTake (canonicalMove mv) 500 ++
      String.mk ((canonicalMove mv).data.drop 500) = canonicalMove mv ∧
    (∀ ns2 n2 m2 a b rc sd,
      Event.moveTx ns2 n2 m2 a b rc sd ∈ (sendmove env ns name mv).2 →
      m2 = canonicalMove mv) := by
  refine ⟨?_, pyTake_length_le _ 500, pyTake_append_drop _ 500, ?_⟩
  · rcases h1 : env.existsName ns name with e1 | b
    · simp [sendmove, sendmoveBody, sendmoveHandle, h1]
    · match b with
      | false => simp [sendmove, sendmoveBody, sendmoveHandle, h1]
      | true =>
        rcases h2 : getNameOwnerRun env ns name with e2 | ⟨owner, tid⟩
        · simp [sendmove, sendmoveBody, sendmoveHandle, h1, h2]
        · rcases h3 : ensuregasRun env owner with ⟨oe3, evs3⟩
          match oe3 with
          | some e3 => simp [sendmove, sendmoveBody, sendmoveHandle, h1, h2, h3]
          | none =>
            rcases h4 : env.moveTx ns name (canonicalMove mv) maxUint256 0
                zeroAddress owner with e4 | tx
            · simp [sendmove, sendmoveBody, sendmoveHandle, h1, h2, h3, h4]
            · rcases h5 : env.evmMine with e5 | u5
              · simp [sendmove, sendmoveBody, sendmoveHandle, h1, h2, h3, h4, h5]
              · simp [sendmove, sendmoveBody, sendmoveHandle, h1, h2, h3, h4, h5]
  · intro ns2 n2 m2 a b rc sd hmem
    rcases h1 : env.existsName ns name with e1 | bb
    · simp [sendmove, sendmoveBody, sendmoveHandle, h1] at hmem
    · match bb with
      | false => simp [sendmove, sendmoveBody, sendmoveHandle, h1] at hmem
      | true =>
        rcases h2 : getNameOwnerRun env ns name with e2 | ⟨owner, tid⟩
        · simp [sendmove, sendmoveBody, sendmoveHandle, h1, h2] at hmem
        · rcases h3 : ensuregasRun env owner with ⟨oe3, evs3⟩
          have hevs := ensuregasRun_events env owner
          rw [h3] at hevs; simp at hevs
          match oe3 with
          | some e3 =>
            simp [sendmove, sendmoveBody, sendmoveHandle, h1, h2, h3] at hmem
            rcases hevs with hevs | hevs <;> subst hevs <;> simp at hmem
          | none =>
            rcases h4 : env.moveTx ns name (canonicalMove mv) maxUint256 0
                zeroAddress owner with e4 | tx
            all_goals
              rcases h5 : env.evmMine with e5 | u5
            all_goals
              simp [sendmove, sendmoveBody, sendmoveHandle, h1, h2, h3, h4, h5]
                at hmem
            all_goals
              rcases hevs with hevs | hevs <;> subst hevs <;>
                simp at hmem <;> (try tauto)

/-- Witness for C8: a concrete structured payload, its compact
serialization as submitted in the move event, and the reported prefix. -/
theorem c8_movedata_truncated_tx_full_witness :
    (sendmove baseEnv "p" "domob" (.obj [("a", .num 1)])).1.moveData =
      some (pyTake (canonicalMove (.obj [("a", .num 1)])) 500) ∧
    "\x7b\"a\":1\x7d" = canonicalMove (.obj [("a", .num 1)]) :=
  ⟨(c8_movedata_truncated_tx_full baseEnv "p" "domob" (.obj [("a", .num 1)])).1,
   (c8_movedata_truncated_tx_full baseEnv "p" "domob" (.obj [("a", .num 1)])).2.2.2
     "p" "domob" "\x7b\"a\":1\x7d" maxUint256 0 zeroAddress "0xOWNER" (by decide)⟩

-- Claim C6

/-- Every failing `sendmove` result carries an error message. -/
theorem sendmove_fail_has_error (env : Env) (ns name : String) (mv : Jv)
    (h : (sendmove env ns name mv).1.success = false) :
    (sendmove env ns name mv).1.error.isSome = true := by
  rcases h1 : env.existsName ns name with e1 | b
  · simp [sendmove, sendmoveBody, sendmoveHandle, h1]
  · match b with
    | false => simp [sendmove, sendmoveBody, sendmoveHandle, h1]
    | true =>
      rcases h2 : getNameOwnerRun env ns name with e2 | ⟨owner, tid⟩
      · simp [sendmove, sendmoveBody, sendmoveHandle, h1, h2]
      · rcases h3 : ensuregasRun env owner with ⟨oe3, evs3⟩
        match oe3 with
        | some e3 => simp [sendmove, sendmoveBody, sendmoveHandle, h1, h2, h3]
        | none =>
          rcases h4 : env.moveTx ns name (canonicalMove mv) maxUint256 0
              zeroAddress owner with e4 | tx
          · simp [sendmove, sendmoveBody, sendmoveHandle, h1, h2, h3, h4]
          · rcases h5 : env.evmMine with e5 | u5
            · simp [sendmove, sendmoveBody, sendmoveHandle, h1, h2, h3, h4, h5]
            · simp [sendmove, sendmoveBody, sendmoveHandle, h1, h2, h3, h4, h5] at h

/-- Every failing `getname` result carries an error message. -/
theorem getname_fail_has_error (env : Env) (ns name receiver : String)
    (h : (getname env ns name receiver).1.success = false) :
    (getname env ns name receiver).1.error.isSome = true := by
  rcases h1 : tryRegisterNameRun env ns name receiver with ⟨res, evs⟩
  match res with
  | .error e1 => simp [getname, getnameBody, getnameHandle, h1]
  | .ok true => simp [getname, getnameBody, getnameHandle, h1] at h
  | .ok false =>
    rcases h2 : getNameOwnerRun env ns name with e2 | ⟨owner, tid⟩
    · simp [getname, getnameBody, getnameHandle, h1, h2]
    · rcases h3 : ensuregasRun env owner with ⟨oe3, evs3⟩
      match oe3 with
      | some e3 => simp [getname, getnameBody, getnameHandle, h1, h2, h3]
      | none =>
        rcases h4 : env.transferFrom owner receiver tid owner with e4 | u4
        · simp [getname, getnameBody, getnameHandle, h1, h2, h3, h4]
        · rcases h5 : env.evmMine with e5 | u5
          · simp [getname, getnameBody, getnameHandle, h1, h2, h3, h4, h5]
          · simp [getname, getnameBody, getnameHandle, h1, h2, h3, h4, h5] at h

/-- Every failing `validatecharacterstate` result carries an error
message. -/
theorem validate_fail_has_error (env : Env) (cid : Int) (action : String)
    (h : (validatecharacterstate env cid action).valid = false) :
    (validatecharacterstate env cid action).error.isSome = true := by
  rcases h1 : env.getcharacters with e1 | chars
  · simp [validatecharacterstate, validateBody, validateHandle, h1]
  · rcases h2 : (chars.getD []).find? (fun c => c.id == some cid) with _ | ch
    · simp [validatecharacterstate, validateBody, validateHandle, h1, h2]
    · by_cases h3 : action = "move"
      · subst h3
        rcases h4 : ch.inbuilding with _ | b
        · by_cases h5 : ch.speed.getD 0 ≤ 0
          · simp [validatecharacterstate, validateBody, validateHandle, h1, h2, h4, h5]
          · by_cases h6 : ongoingBusy ch.ongoing
            · simp [validatecharacterstate, validateBody, validateHandle,
                    h1, h2, h4, h5, h6]
            · simp [validatecharacterstate, validateBody, validateHandle,
                    h1, h2, h4, h5, h6] at h
        · simp [validatecharacterstate, validateBody, validateHandle, h1, h2, h4]
      · simp [validatecharacterstate, validateBody, validateHandle, h1, h2, h3] at h

/-- Every failing `syncgsp` result carries an error message. -/
theorem syncgsp_fail_has_error (env : Env) (fuel : Nat) (r : SyncResult)
    (n : Nat) (h : syncgsp env fuel = some (r, n))
    (hf : r.success = false) : r.error.isSome = true := by
  rcases h1 : env.headHash with e1 | raw
  · simp [syncgsp, syncgspBody, syncgspHandle, h1] at h
    rcases h with ⟨hr, _⟩
    simp [← hr]
  · by_cases h2 : (normalizeHash raw).length = 64
    · rcases h3 : syncLoop env (normalizeHash raw) fuel 0 with ⟨out, m⟩
      match out with
      | .fuelOut i => simp [syncgsp, syncgspBody, syncgspHandle, h1, h2, h3] at h
      | .raised e3 i =>
        simp [syncgsp, syncgspBody, syncgspHandle, h1, h2, h3] at h
        rcases h with ⟨hr, _⟩
        simp [← hr]
      | .timedOut i tag bh =>
        simp [syncgsp, syncgspBody, syncgspHandle, h1, h2, h3] at h
        rcases h with ⟨hr, _⟩
        simp [← hr]
      | .matched i =>
        simp [syncgsp, syncgspBody, syncgspHandle, h1, h2, h3] at h
        rcases h with ⟨hr, _⟩
        rw [← hr] at hf
        simp at hf
    · simp [syncgsp, syncgspBody, syncgspHandle, h1, h2] at h
      rcases h with ⟨hr, _⟩
      simp [← hr]

/-- In `envStale` the wait loop times out at the very first check. -/
theorem envStale_loop :
    syncLoop envStale (normalizeHash ("0x" ++ h64)) 5 0 =
      (.timedOut 0 "catching-up" (some "00"), 0) := by
  have hp : envStale.polls 0 =
      .ok { state := some "catching-up", blockhash := some "00" } := rfl
  have hgt : maxWait < envStale.checkClock 0 - envStale.startClock := by
    show maxWait < (200 : ℚ) - 100
    rw [maxWait]; norm_num
  simp [syncLoop, hp, hgt]

/-- Counterexample to C6: the `sendmove` failure for a non-existent name
and the `syncgsp` timeout failure carry an error message but no
`errorType` tag. -/
theorem c6_counterexample_no_errortype :
    (sendmove baseEnv "p" "missing" (.str "mv")).1.success = false ∧
    (sendmove baseEnv "p" "missing" (.str "mv")).1.error =
      some "name p/missing does not exist yet" ∧
    (sendmove baseEnv "p" "missing" (.str "mv")).1.errorType = none ∧
    syncgsp envStale 5 =
      some ({ success := false, targetBlock := some h64,
              error := some "Timeout waiting for GSP sync after 30 seconds",
              lastState := some "catching-up", lastBlock := some "00" }, 0) := by
  refine ⟨rfl, rfl, rfl, ?_⟩
  have hh : envStale.headHash = .ok ("0x" ++ h64) := rfl
  have hl : (normalizeHash ("0x" ++ h64)).length = 64 := by decide
  simp [syncgsp, syncgspBody, syncgspHandle, hh, hl, envStale_loop]
  decide

/-- C6 (amended): every failure result carries an error message, and
failures converted from caught exceptions carry an `errorType` tag as
well; but the `sendmove` failure for a non-existent name and the
`syncgsp` timeout failure carry only the error message and no
`errorType`. -/
theorem c6_failures_carry_error_message :
    (∀ env ns name mv, (sendmove env ns name mv).1.success = false →
      (sendmove env ns name mv).1.error.isSome = true) ∧
    (∀ env ns name receiver, (getname env ns name receiver).1.success = false →
      (getname env ns name receiver).1.error.isSome = true) ∧
    (∀ env cid action, (validatecharacterstate env cid action).valid = false →
      (validatecharacterstate env cid action).error.isSome = true) ∧
    (∀ env fuel r n, syncgsp env fuel = some (r, n) → r.success = false →
      r.error.isSome = true) ∧
    (∀ env ns name mv, env.existsName ns name = .ok false →
      (sendmove env ns name mv).1.error =
        some ("name " ++ ns ++ "/" ++ name ++ " does not exist yet") ∧
      (sendmove env ns name mv).1.errorType = none) ∧
    (∀ env fuel raw i tag bh n, env.headHash = .ok raw →
      (normalizeHash raw).length = 64 →
      syncLoop env (normalizeHash raw) fuel 0 = (.timedOut i tag bh, n) →
      ∃ r, syncgsp env fuel = some (r, n) ∧
        r.error = some "Timeout waiting for GSP sync after 30 seconds" ∧
        r.lastState = some tag ∧ r.lastBlock = some (bh.getD "unknown") ∧
        r.errorType = none) := by
  refine ⟨sendmove_fail_has_error, getname_fail_has_error,
          validate_fail_has_error, syncgsp_fail_has_error, ?_, ?_⟩
  · intro env ns name mv h
    constructor <;> simp [sendmove, sendmoveBody, sendmoveHandle, h]
  · intro env fuel raw i tag bh n hhead hlen hloop
    refine ⟨{ success := false, targetBlock := some (normalizeHash raw),
              error := some "Timeout waiting for GSP sync after 30 seconds",
              lastState := some tag, lastBlock := some (bh.getD "unknown") },
            ?_, rfl, rfl, rfl, rfl⟩
    simp [syncgsp, syncgspBody, syncgspHandle, hhead, hlen, hloop]

/-- Witness for the amended C6: the concrete missing-name failure and a
concrete timeout. -/
theorem c6_failures_carry_error_message_witness :
    (sendmove baseEnv "p" "missing" (.str "mv")).1.error.isSome = true ∧
    ((sendmove baseEnv "p" "missing" (.str "mv")).1.error =
       some ("name " ++ "p" ++ "/" ++ "missing" ++ " does not exist yet") ∧
     (sendmove baseEnv "p" "missing" (.str "mv")).1.errorType = none) ∧
    (∃ r, syncgsp envStale 5 = some (r, 0) ∧
      r.error = some "Timeout waiting for GSP sync after 30 seconds" ∧
      r.lastState = some "catching-up" ∧
      r.lastBlock = some ((some "00").getD "unknown") ∧
      r.errorType = none) :=
  ⟨c6_failures_carry_error_message.1 baseEnv "p" "missing" (.str "mv") rfl,
   c6_failures_carry_error_message.2.2.2.2.1 baseEnv "p" "missing" (.str "mv") rfl,
   c6_failures_carry_error_message.2.2.2.2.2 envStale 5 ("0x" ++ h64) 0
     "catching-up" (some "00") 0 rfl (by decide) envStale_loop⟩

-- Claim C7

/-- Environment whose chain head hash is malformed (too short). -/
def envShortHash : Env := { baseEnv with headHash := Except.ok "0xabcd" }

/-- C7 (what the code actually does): at a head hash whose normalized
form does not have 64 characters, the failed `assert` raises an
`AssertionError` that the blanket `except Exception` handler converts
into the ordinary structured failure result — `success = false`, empty
`error` message, `errorType = "AssertionError"` — so the wrong-length
condition is swallowed into the generic result rather than escaping as a
fatal local fault. -/
theorem c7_assert_swallowed_into_result :
    syncgsp envShortHash 5 =
      some ({ success := false, error := some "",
              errorType := some "AssertionError" }, 0) := by decide
